import Mathlib

/-!
# Verification of the active-session lifecycle of the time-tracker backend

Shallow embedding of `src/modules/sessions/routes.ts` (the version that uses
`activeSessionEmitter`, a Prisma transaction in `DELETE /sessions/active`, and
the SSE stream at `GET /sessions/active/stream`).

Conventions of the embedding:
* Timestamps are `Int` milliseconds since epoch, as returned by JavaScript's
  `Date.getTime()`.  `Math.floor((a - b) / 1000)` is `Int.fdiv (a - b) 1000`.
* Nullable columns are `Option`s.  A JSON body field that may be absent is an
  outer `Option`; a field that may be present-but-null is `Option (Option _)`.
* Prisma semantics that matter here: in `update`, an object key that is absent
  or has value `undefined` leaves the column unchanged; a key with value
  `null` clears it.  In `create`, an absent/`undefined` key stores `null`.
* An interactive `prisma.$transaction` rolls everything back when a step
  throws; we model that by a `createOk : Bool` parameter for the one fallible
  step (the `timeSession.create`).
* Each operation additionally returns a `Nat` counting the
  `activeSessionEmitter.notifyActiveSessionChange(userId)` calls it makes, and
  the stream helpers return a `Nat` counting queries against the store.
-/

/-- Session mode, the `mode` enum of the zod schemas. -/
inductive Mode where
  | stopwatch
  | timer
  | pomodoro
deriving DecidableEq

/-- Pomodoro phase enum (`work`, `shortBreak`, `longBreak`). -/
inductive PomodoroPhase where
  | work
  | shortBreak
  | longBreak
deriving DecidableEq

/-- A row of the `ActiveSession` table (the per-user register slot). -/
structure ActiveSession where
  id : String
  startTime : Int
  mode : Mode
  projectId : Option String
  description : Option String
  targetSeconds : Option Int
  pomodoroPhase : Option PomodoroPhase
  pomodoroCycle : Int
deriving DecidableEq

/-- A row of the `TimeSession` table (a historical session). -/
structure TimeSession where
  description : Option String
  startTime : Int
  endTime : Int
  durationSeconds : Int
  mode : Mode
  userId : String
  projectId : Option String
deriving DecidableEq

/-- The store state relevant to one user: the (at most one) active-session
slot keyed by that user, and the list of historical sessions. -/
structure Store where
  active : Option ActiveSession
  history : List TimeSession
deriving DecidableEq

/-- JavaScript `s || null` on a nullable string column: an empty string is
falsy and becomes `null`. -/
def strOrNull (v : Option String) : Option String :=
  match v with
  | some p => if p = "" then none else some p
  | none => none

/-- `body.x || null` where `body.x` may also be absent (`undefined`). -/
def jsOrNull (v : Option (Option String)) : Option String :=
  match v with
  | some i => strOrNull i
  | none => none

/-- The description copy of the promotion path:
`if (activeSession.description && activeSession.description.trim())
   sessionData.description = activeSession.description.trim()`. -/
def normDesc (d : Option String) : Option String :=
  match d with
  | some s => if s = "" then none else if s.trim = "" then none else some s.trim
  | none => none

/-- `if (body.projectId) { findFirst({id, userId}); if (!project) 404 }`:
the ownership check fails iff a non-null, non-empty project id was supplied
that is not among the user's own projects (`owned`). -/
def projectCheckFails (owned : List String) (pid : Option (Option String)) : Bool :=
  match pid with
  | some (some p) => if p = "" then false else !(owned.contains p)
  | _ => false

/-- Outcome of `DELETE /sessions/active` (stop / promotion). -/
inductive StopOutcome where
  | noActive
  | invalidDuration
  | promoted (ts : TimeSession)
  | createFailed
deriving DecidableEq

/-- `DELETE /sessions/active`: find the active session (404 when absent),
compute `duration = Math.floor((now − startTime)/1000)`; when `duration ≤ 0`
delete the slot and answer 400; otherwise run the transaction that creates
the `TimeSession` and deletes the slot, then notify once.  `createOk` models
whether the `timeSession.create` inside the transaction succeeds; a failure
rolls the whole transaction back. -/
def stopActive (userId : String) (now : Int) (createOk : Bool) (st : Store) :
    StopOutcome × Store × Nat :=
  match st.active with
  | none => (.noActive, st, 0)
  | some a =>
    let duration := Int.fdiv (now - a.startTime) 1000
    if duration ≤ 0 then
      (.invalidDuration, { active := none, history := st.history }, 0)
    else
      let ts : TimeSession :=
        { description := normDesc a.description
          startTime := a.startTime
          endTime := now
          durationSeconds := duration
          mode := a.mode
          userId := userId
          projectId := strOrNull a.projectId }
      if createOk then
        (.promoted ts, { active := none, history := ts :: st.history }, 1)
      else
        (.createFailed, st, 0)

/-- The JSON body accepted by `POST /sessions/active` (`activeSessionSchema`).
Outer `Option` = the key may be absent; inner `Option` = the value may be
`null`. -/
structure UpsertBody where
  startTime : Int
  mode : Mode
  projectId : Option (Option String) := none
  description : Option String := none
  targetSeconds : Option (Option Int) := none
  pomodoroPhase : Option (Option PomodoroPhase) := none
  pomodoroCycle : Option Int := none
deriving DecidableEq

/-- The `activeSessionData` object built by the handler.  For the
conditionally-added keys, `none` means the key is absent (or explicitly
`undefined`), i.e. skipped by Prisma `update` and stored as `null` by
`create`. -/
structure UpsertData where
  startTime : Int
  mode : Mode
  projectId : Option String
  description : Option String
  targetSeconds : Option (Option Int)
  pomodoroPhase : Option (Option PomodoroPhase)
  pomodoroCycle : Int
deriving DecidableEq

/-- Builds `activeSessionData` from the parsed body: `pomodoroCycle ?? 0`;
description trimmed and set to `undefined` when blank; `projectId` always
set (`body.projectId || null`, and `null` when the key is absent);
`targetSeconds` and `pomodoroPhase` added only when present in the body. -/
def buildUpsertData (b : UpsertBody) : UpsertData :=
  { startTime := b.startTime
    mode := b.mode
    pomodoroCycle := b.pomodoroCycle.getD 0
    description :=
      match b.description with
      | some s => if s = "" then none else if s.trim = "" then none else some s.trim
      | none => none
    projectId := jsOrNull b.projectId
    targetSeconds := b.targetSeconds
    pomodoroPhase := b.pomodoroPhase }

/-- Prisma `update` on the existing slot: keys absent from the data object
leave the column unchanged; `targetSeconds`/`pomodoroPhase` present with
`null` clear their column.  The row identity (`id`) is untouched. -/
def applyUpdate (a : ActiveSession) (d : UpsertData) : ActiveSession :=
  { a with
    startTime := d.startTime
    mode := d.mode
    pomodoroCycle := d.pomodoroCycle
    projectId := d.projectId
    description :=
      match d.description with
      | some s => some s
      | none => a.description
    targetSeconds :=
      match d.targetSeconds with
      | some v => v
      | none => a.targetSeconds
    pomodoroPhase :=
      match d.pomodoroPhase with
      | some v => v
      | none => a.pomodoroPhase }

/-- Prisma `create` from the same data object: absent keys become `null`;
`newId` is the fresh row id. -/
def applyCreate (newId : String) (d : UpsertData) : ActiveSession :=
  { id := newId
    startTime := d.startTime
    mode := d.mode
    pomodoroCycle := d.pomodoroCycle
    projectId := d.projectId
    description := d.description
    targetSeconds :=
      match d.targetSeconds with
      | some v => v
      | none => none
    pomodoroPhase :=
      match d.pomodoroPhase with
      | some v => v
      | none => none }

/-- Outcome of `POST /sessions/active`. -/
inductive UpsertOutcome where
  | projectNotFound
  | ok (a : ActiveSession)
deriving DecidableEq

/-- `POST /sessions/active`: ownership check for a supplied project, then
`prisma.activeSession.upsert({where:{userId}, update: data, create: data})`,
then one `notifyActiveSessionChange(userId)`. -/
def upsertActive (newId : String) (owned : List String) (b : UpsertBody) (st : Store) :
    UpsertOutcome × Store × Nat :=
  if projectCheckFails owned b.projectId then
    (.projectNotFound, st, 0)
  else
    let d := buildUpsertData b
    let a :=
      match st.active with
      | some old => applyUpdate old d
      | none => applyCreate newId d
    (.ok a, { st with active := some a }, 1)

/-- The JSON body accepted by `POST /sessions` (`createSessionSchema`); zod
requires `durationSeconds` to be a non-negative integer. -/
structure CreateBody where
  projectId : Option (Option String) := none
  description : Option String := none
  startTime : Int
  endTime : Int
  durationSeconds : Int
  mode : Mode
deriving DecidableEq

/-- Outcome of `POST /sessions`. -/
inductive CreateOutcome where
  | projectNotFound
  | created (ts : TimeSession)
deriving DecidableEq

/-- `POST /sessions`: ownership check for a supplied project, then persists
the body's fields as given — `durationSeconds` is stored exactly as supplied
by the caller, with no comparison against `endTime − startTime`. -/
def createSession (userId : String) (owned : List String) (b : CreateBody)
    (hist : List TimeSession) : CreateOutcome × List TimeSession :=
  if projectCheckFails owned b.projectId then
    (.projectNotFound, hist)
  else
    let ts : TimeSession :=
      { description := b.description
        startTime := b.startTime
        endTime := b.endTime
        durationSeconds := b.durationSeconds
        mode := b.mode
        userId := userId
        projectId := jsOrNull b.projectId }
    (.created ts, ts :: hist)

/-- The JSON body accepted by `PATCH /sessions/:id` (`updateSessionSchema`).
`startTime`/`endTime` are modelled as the already-parsed timestamps; `none`
covers both an absent key and a falsy (empty) string, which the handler's
`if (body.startTime)` truthiness test skips alike. -/
structure UpdateBody where
  description : Option String := none
  projectId : Option (Option String) := none
  startTime : Option Int := none
  endTime : Option Int := none
deriving DecidableEq

/-- `PATCH /sessions/:id` on a session `existing` owned by the caller:
ownership check for a supplied project; `description`/`projectId` updated
when their key is present; when `startTime` or `endTime` is supplied,
`durationSeconds` is recomputed as `Math.floor((newEnd − newStart)/1000)` and
a negative result is rejected with a 400. -/
def updateSession (owned : List String) (existing : TimeSession) (b : UpdateBody) :
    Except String TimeSession :=
  if projectCheckFails owned b.projectId then
    .error "Projeto não encontrado"
  else
    let newStart := b.startTime.getD existing.startTime
    let newEnd := b.endTime.getD existing.endTime
    let desc :=
      match b.description with
      | some v => some v
      | none => existing.description
    let pid :=
      match b.projectId with
      | some v => strOrNull v
      | none => existing.projectId
    if b.startTime.isSome || b.endTime.isSome then
      let d := Int.fdiv (newEnd - newStart) 1000
      if d < 0 then
        .error "A data de término deve ser posterior ou igual à data de início"
      else
        .ok { existing with
              description := desc
              projectId := pid
              startTime := newStart
              endTime := newEnd
              durationSeconds := d }
    else
      .ok { existing with description := desc, projectId := pid }

/-- The joined `project` summary (`select: {id, name, color}`). -/
structure ProjectSummary where
  id : String
  name : String
  color : String
deriving DecidableEq

/-- An `activeSession` row as fetched by the stream's
`findUnique({where:{userId}, include:{project}})`. -/
structure FetchedActive where
  id : String
  startTime : Int
  mode : Mode
  projectId : Option String
  description : Option String
  targetSeconds : Option Int
  pomodoroPhase : Option PomodoroPhase
  pomodoroCycle : Int
  project : Option ProjectSummary
deriving DecidableEq

/-- `cachedState = { activeSession }`, the connection's short-lived cache of
the last fetched state. -/
structure CachedState where
  activeSession : Option FetchedActive
deriving DecidableEq

/-- The per-connection mutable variables of the SSE handler:
`cachedState` (initially `null`) and `lastQueryTime` (initially `0`). -/
structure ConnState where
  cachedState : Option CachedState
  lastQueryTime : Int
deriving DecidableEq

/-- An SSE event payload.  `activeState` is the eleven-field active payload;
`inactiveState e` is the object `{active: false, elapsedSeconds: e}`. -/
inductive SSEEvent where
  | activeState (id : String) (startTime : Int) (mode : Mode)
      (projectId : Option String) (description : Option String)
      (targetSeconds : Option Int) (pomodoroPhase : Option PomodoroPhase)
      (pomodoroCycle : Int) (project : Option ProjectSummary)
      (elapsedSeconds : Int)
  | inactiveState (elapsedSeconds : Int)
deriving DecidableEq

/-- `const QUERY_CACHE_MS = 100`. -/
def QUERY_CACHE_MS : Int := 100

/-- `sendCurrentState(forceQuery)`: queries the store iff
`forceQuery || (now − lastQueryTime) > QUERY_CACHE_MS`, refreshing the cache
and `lastQueryTime`; otherwise reuses `cachedState?.activeSession`.  Pushes
the active payload with `elapsedSeconds = Math.floor((now − startTime)/1000)`
when a session is at hand, else `{active:false, elapsedSeconds:0}`.
`dbActive` is what the store query would return; the returned `Nat` counts
queries actually made. -/
def sendCurrentState (forceQuery : Bool) (now : Int)
    (dbActive : Option FetchedActive) (c : ConnState) :
    List SSEEvent × ConnState × Nat :=
  let shouldQuery := forceQuery || decide (now - c.lastQueryTime > QUERY_CACHE_MS)
  let activeSession :=
    if shouldQuery then dbActive
    else
      match c.cachedState with
      | some cs => cs.activeSession
      | none => none
  let c' :=
    if shouldQuery then
      { cachedState := some { activeSession := dbActive }, lastQueryTime := now }
    else c
  let q := if shouldQuery then 1 else 0
  match activeSession with
  | some a =>
    ([SSEEvent.activeState a.id a.startTime a.mode a.projectId a.description
        a.targetSeconds a.pomodoroPhase a.pomodoroCycle a.project
        (Int.fdiv (now - a.startTime) 1000)], c', q)
  | none => ([SSEEvent.inactiveState 0], c', q)

/-- Specification-side rendering of a register snapshot as a payload, used to
compare what the stream pushes against the register's current state. -/
def renderSnapshot (now : Int) (db : Option FetchedActive) : SSEEvent :=
  match db with
  | some a =>
    SSEEvent.activeState a.id a.startTime a.mode a.projectId a.description
      a.targetSeconds a.pomodoroPhase a.pomodoroCycle a.project
      (Int.fdiv (now - a.startTime) 1000)
  | none => SSEEvent.inactiveState 0

/-- The `activeSessionChange` listener: when the event's user id matches this
connection's user, `sendCurrentState(true)`; otherwise nothing. -/
def onChangeHandler (changedUserId userId : String) (now : Int)
    (dbActive : Option FetchedActive) (c : ConnState) :
    List SSEEvent × ConnState × Nat :=
  if changedUserId = userId then sendCurrentState true now dbActive c
  else ([], c, 0)

/-- The 1-second `setInterval` tick: no store access at all (the function is
not even given the store); when `cachedState?.activeSession` is present it
pushes the cached fields with `elapsedSeconds` recomputed from `now`,
otherwise it pushes nothing. -/
def tickHandler (now : Int) (c : ConnState) : List SSEEvent × ConnState × Nat :=
  match c.cachedState with
  | some cs =>
    match cs.activeSession with
    | some a =>
      ([SSEEvent.activeState a.id a.startTime a.mode a.projectId a.description
          a.targetSeconds a.pomodoroPhase a.pomodoroCycle a.project
          (Int.fdiv (now - a.startTime) 1000)], c, 0)
    | none => ([], c, 0)
  | none => ([], c, 0)

/-- The initial per-connection state (`cachedState = null`,
`lastQueryTime = 0`). -/
def initialConn : ConnState :=
  { cachedState := none, lastQueryTime := 0 }

/-! ## Concrete values used by witnesses and counterexamples -/

/-- A running pomodoro active session started at t = 0 ms. -/
def aRun : ActiveSession :=
  { id := "as1", startTime := 0, mode := Mode.pomodoro, projectId := none
    description := none, targetSeconds := some 1500
    pomodoroPhase := some PomodoroPhase.work, pomodoroCycle := 0 }

/-- A store whose slot holds `aRun` and whose history is empty. -/
def stRun : Store := { active := some aRun, history := [] }

/-- A stopwatch active session started at t = 0 ms (used for zero-elapsed
stops). -/
def aZero : ActiveSession :=
  { id := "as0", startTime := 0, mode := Mode.stopwatch, projectId := none
    description := none, targetSeconds := none
    pomodoroPhase := none, pomodoroCycle := 0 }

/-- A store whose slot holds `aZero`. -/
def stZero : Store := { active := some aZero, history := [] }

/-- A store with no active session. -/
def stEmpty : Store := { active := none, history := [] }

/-- An upsert body carrying a target duration and a cycle. -/
def b1ex : UpsertBody :=
  { startTime := 0, mode := Mode.pomodoro
    targetSeconds := some (some 1500), pomodoroCycle := some 0 }

/-- A second upsert body that omits `description`, `targetSeconds`,
`pomodoroPhase`, `pomodoroCycle` and `projectId`. -/
def b2ex : UpsertBody := { startTime := 2000, mode := Mode.pomodoro }

/-! ## Helper lemmas -/

/-- `normDesc` is the identity on a description that is absent, or non-empty
and already trimmed — the only shapes the upsert route ever stores. -/
theorem normDesc_of_normalized (d : Option String)
    (h : d = none ∨ ∃ s, d = some s ∧ s.trim = s ∧ s ≠ "") : normDesc d = d := by
  rcases h with h | ⟨s, rfl, ht, hne⟩
  · subst h; rfl
  · simp [normDesc, hne, ht]

/-- `strOrNull` is the identity unless the value is the empty string. -/
theorem strOrNull_of_ne (p : Option String) (h : p ≠ some "") : strOrNull p = p := by
  cases p with
  | none => rfl
  | some s =>
    have hs : s ≠ "" := fun he => h (by rw [he])
    simp [strOrNull, hs]

/-! ## Claims -/

/-- C1: for a user with an active session whose elapsed whole seconds are
positive, stop is atomic: on success the slot is cleared and exactly one new
historical session is prepended, with start time, mode, project and
description copied from the active session, end time = now and duration =
elapsed; if the historical create fails, the transaction rolls back and the
store (slot included) is unchanged.  The last two hypotheses record that the
register's contents are well-formed — the upsert route stores descriptions
trimmed-or-absent and never stores an empty-string project id (zod `min(1)`),
so `normDesc`/`strOrNull` are the identity on them. -/
theorem stop_promotion_atomic (userId : String) (now : Int) (st : Store)
    (a : ActiveSession)
    (ha : st.active = some a)
    (helapsed : 0 < Int.fdiv (now - a.startTime) 1000)
    (hdesc : a.description = none ∨ ∃ s, a.description = some s ∧ s.trim = s ∧ s ≠ "")
    (hpid : a.projectId ≠ some "") :
    stopActive userId now true st =
      (.promoted
        { description := a.description, startTime := a.startTime, endTime := now
          durationSeconds := Int.fdiv (now - a.startTime) 1000, mode := a.mode
          userId := userId, projectId := a.projectId },
       { active := none
         history :=
           { description := a.description, startTime := a.startTime, endTime := now
             durationSeconds := Int.fdiv (now - a.startTime) 1000, mode := a.mode
             userId := userId, projectId := a.projectId } :: st.history }, 1)
    ∧ stopActive userId now false st = (.createFailed, st, 0) := by
  obtain ⟨act, hist⟩ := st
  simp only at ha
  subst ha
  have hle : ¬ (Int.fdiv (now - a.startTime) 1000 ≤ 0) := not_le.mpr helapsed
  have hnd := normDesc_of_normalized a.description hdesc
  have hsp := strOrNull_of_ne a.projectId hpid
  constructor
  · simp [stopActive, hle, hnd, hsp]
  · simp [stopActive, hle]

/-- Witness for C1 at a concrete input: the pomodoro session of `stRun`
stopped at t = 10000 ms (elapsed 10 s). -/
theorem stop_promotion_atomic_witness :
    stopActive "u1" 10000 true stRun =
      (.promoted
        { description := aRun.description, startTime := aRun.startTime, endTime := 10000
          durationSeconds := Int.fdiv (10000 - aRun.startTime) 1000, mode := aRun.mode
          userId := "u1", projectId := aRun.projectId },
       { active := none
         history :=
           [{ description := aRun.description, startTime := aRun.startTime, endTime := 10000
              durationSeconds := Int.fdiv (10000 - aRun.startTime) 1000, mode := aRun.mode
              userId := "u1", projectId := aRun.projectId }] }, 1)
    ∧ stopActive "u1" 10000 false stRun = (.createFailed, stRun, 0) :=
  stop_promotion_atomic "u1" 10000 stRun aRun rfl (by decide) (Or.inl rfl) (by decide)

/-- C2 (amended): a successful upsert emits exactly one change notification,
a successful promotion emits exactly one, but the deletion done on the
invalid-duration (elapsed ≤ 0) stop path emits none even though it does
clear the slot. -/
theorem notify_per_operation :
    (∀ (newId : String) (owned : List String) (b : UpsertBody) (st : Store),
        projectCheckFails owned b.projectId = false →
        (upsertActive newId owned b st).2.2 = 1)
    ∧ (∀ (u : String) (now : Int) (st : Store) (a : ActiveSession),
        st.active = some a → 0 < Int.fdiv (now - a.startTime) 1000 →
        (stopActive u now true st).2.2 = 1)
    ∧ (∀ (u : String) (now : Int) (ok : Bool) (st : Store) (a : ActiveSession),
        st.active = some a → Int.fdiv (now - a.startTime) 1000 ≤ 0 →
        (stopActive u now ok st).2.1.active = none ∧
        (stopActive u now ok st).2.2 = 0) := by
  refine ⟨?_, ?_, ?_⟩
  · intro newId owned b st h
    simp [upsertActive, h]
  · intro u now st a ha h
    obtain ⟨act, hist⟩ := st
    simp only at ha
    subst ha
    simp [stopActive, not_le.mpr h]
  · intro u now ok st a ha h
    obtain ⟨act, hist⟩ := st
    simp only at ha
    subst ha
    simp [stopActive, h]

/-- Witness for C2 (amended) at concrete inputs: an upsert into the empty
store, the promotion of `stRun` at t = 10000, and the invalid-duration stop
of `stZero` at t = 0. -/
theorem notify_per_operation_witness :
    (upsertActive "a1" [] b1ex stEmpty).2.2 = 1 ∧
    (stopActive "u1" 10000 true stRun).2.2 = 1 ∧
    ((stopActive "u1" 0 true stZero).2.1.active = none ∧
     (stopActive "u1" 0 true stZero).2.2 = 0) :=
  ⟨notify_per_operation.1 "a1" [] b1ex stEmpty rfl,
   notify_per_operation.2.1 "u1" 10000 stRun aRun rfl (by decide),
   notify_per_operation.2.2 "u1" 0 true stZero aZero rfl (by decide)⟩

/-- Counterexample to C2 as stated: stopping `stZero` at t = 0 (elapsed 0)
successfully deletes the active slot, yet the number of change notifications
emitted is 0, not the claimed exactly one. -/
theorem notify_missing_on_invalid_stop :
    (stopActive "u1" 0 true stZero).2.1.active = none ∧
    (stopActive "u1" 0 true stZero).2.2 = 0 ∧
    ¬ (stopActive "u1" 0 true stZero).2.2 = 1 := by decide

/-- C4: when the elapsed whole seconds at stop time are ≤ 0, the stop still
deletes the active slot, reports the invalid-duration error, and creates no
historical session (the history is unchanged) — regardless of whether the
historical create would have succeeded. -/
theorem stop_invalid_duration_clears (userId : String) (now : Int) (ok : Bool)
    (st : Store) (a : ActiveSession)
    (ha : st.active = some a)
    (hd : Int.fdiv (now - a.startTime) 1000 ≤ 0) :
    stopActive userId now ok st =
      (.invalidDuration, { active := none, history := st.history }, 0) := by
  obtain ⟨act, hist⟩ := st
  simp only at ha
  subst ha
  simp [stopActive, hd]

/-- Witness for C4 at a concrete input: stopping `stZero` at t = 500 ms
(elapsed 0 whole seconds). -/
theorem stop_invalid_duration_clears_witness :
    stopActive "u2" 500 false stZero =
      (.invalidDuration, { active := none, history := [] }, 0) :=
  stop_invalid_duration_clears "u2" 500 false stZero aZero rfl (by decide)

/-- C9: stopping when no active session exists fails with the
no-active-session error and has no side effects: the store is returned
unchanged (no historical session created, no slot modified) and no change
notification is emitted. -/
theorem stop_no_active_no_effects (userId : String) (now : Int) (ok : Bool)
    (st : Store)
    (ha : st.active = none) :
    stopActive userId now ok st = (.noActive, st, 0) := by
  obtain ⟨act, hist⟩ := st
  simp only at ha
  subst ha
  simp [stopActive]

/-- Witness for C9 at a concrete input: stopping the empty store. -/
theorem stop_no_active_no_effects_witness :
    stopActive "u1" 12345 true stEmpty = (.noActive, stEmpty, 0) :=
  stop_no_active_no_effects "u1" 12345 true stEmpty rfl

/-- C3 (amended): upsert on an existing slot fully replaces `startTime`,
`mode`, `pomodoroCycle` (defaulting to 0) and `projectId` (null when the call
omits it), but `description`, `targetSeconds` and `pomodoroPhase` are
*preserved* from the existing slot when the call omits them — the Prisma
update object simply lacks those keys, so omitted optional fields merge with
the prior slot instead of replacing it.  Exactly one slot remains. -/
theorem upsert_preserves_omitted_fields (newId : String) (owned : List String)
    (b : UpsertBody) (st : Store) (old : ActiveSession)
    (ha : st.active = some old)
    (hdesc : b.description = none) (hts : b.targetSeconds = none)
    (hph : b.pomodoroPhase = none)
    (hpc : projectCheckFails owned b.projectId = false) :
    upsertActive newId owned b st =
      (.ok
        { old with
          startTime := b.startTime
          mode := b.mode
          pomodoroCycle := b.pomodoroCycle.getD 0
          projectId := jsOrNull b.projectId },
       { active := some
          { old with
            startTime := b.startTime
            mode := b.mode
            pomodoroCycle := b.pomodoroCycle.getD 0
            projectId := jsOrNull b.projectId }
         history := st.history }, 1) := by
  obtain ⟨act, hist⟩ := st
  simp only at ha
  subst ha
  simp [upsertActive, hpc, buildUpsertData, applyUpdate, hdesc, hts, hph]

/-- Witness for C3 (amended) at a concrete input: upserting `b2ex` (which
omits description, targetSeconds and pomodoroPhase) over the slot `aRun`. -/
theorem upsert_preserves_omitted_fields_witness :
    upsertActive "a9" [] b2ex stRun =
      (.ok
        { aRun with
          startTime := b2ex.startTime
          mode := b2ex.mode
          pomodoroCycle := b2ex.pomodoroCycle.getD 0
          projectId := jsOrNull b2ex.projectId },
       { active := some
          { aRun with
            startTime := b2ex.startTime
            mode := b2ex.mode
            pomodoroCycle := b2ex.pomodoroCycle.getD 0
            projectId := jsOrNull b2ex.projectId }
         history := [] }, 1) :=
  upsert_preserves_omitted_fields "a9" [] b2ex stRun aRun rfl rfl rfl rfl rfl

/-- Counterexample to C3 as stated: after upserting `b1ex` (targetSeconds
1500) and then `b2ex` (targetSeconds omitted), the surviving slot still
carries targetSeconds 1500 — the two calls' fields were merged, not fully
replaced by the second call. -/
theorem upsert_merges_not_replaces :
    b2ex.targetSeconds = none ∧
    ((upsertActive "a2" [] b2ex
        (upsertActive "a1" [] b1ex stEmpty).2.1).2.1.active.map
      (fun s => s.targetSeconds)) = some (some 1500) := by decide

/-- C5 (amended): `PATCH /sessions/:id` recomputes the stored duration as
`⌊(end − start) / 1000⌋` whenever a start or end time is supplied (rejecting
a negative result), so after a time-changing update the stored record
satisfies `durationSeconds = ⌊(endTime − startTime)/1000⌋`; but
`POST /sessions` persists the caller-supplied `durationSeconds` exactly as
given, with no cross-check against `endTime − startTime`. -/
theorem duration_recompute_policy :
    (∀ (owned : List String) (existing : TimeSession) (b : UpdateBody),
        projectCheckFails owned b.projectId = false →
        (b.startTime.isSome || b.endTime.isSome) = true →
        0 ≤ Int.fdiv (b.endTime.getD existing.endTime -
              b.startTime.getD existing.startTime) 1000 →
        updateSession owned existing b =
          .ok
            { existing with
              description :=
                match b.description with
                | some v => some v
                | none => existing.description
              projectId :=
                match b.projectId with
                | some v => strOrNull v
                | none => existing.projectId
              startTime := b.startTime.getD existing.startTime
              endTime := b.endTime.getD existing.endTime
              durationSeconds :=
                Int.fdiv (b.endTime.getD existing.endTime -
                  b.startTime.getD existing.startTime) 1000 })
    ∧ (∀ (u : String) (owned : List String) (b : CreateBody)
        (hist : List TimeSession),
        projectCheckFails owned b.projectId = false →
        createSession u owned b hist =
          (.created
            { description := b.description
              startTime := b.startTime
              endTime := b.endTime
              durationSeconds := b.durationSeconds
              mode := b.mode
              userId := u
              projectId := jsOrNull b.projectId },
           { description := b.description
             startTime := b.startTime
             endTime := b.endTime
             durationSeconds := b.durationSeconds
             mode := b.mode
             userId := u
             projectId := jsOrNull b.projectId } :: hist)) := by
  constructor
  · intro owned existing b hpc htime hd
    have hneg : ¬ (Int.fdiv (b.endTime.getD existing.endTime -
        b.startTime.getD existing.startTime) 1000 < 0) := not_lt.mpr hd
    simp [updateSession, hpc, htime, hneg]
  · intro u owned b hist hpc
    simp [createSession, hpc]

/-- An existing historical session used by the C5 witness. -/
def tsEx : TimeSession :=
  { description := none, startTime := 1000, endTime := 5000
    durationSeconds := 4, mode := Mode.stopwatch, userId := "u1"
    projectId := none }

/-- An update body that moves the end time to t = 8000 ms. -/
def bUpdEx : UpdateBody := { endTime := some 8000 }

/-- A create body whose caller-supplied duration (5 s) disagrees with its
equal start and end times (elapsed 0 s); zod accepts it (`int ≥ 0`). -/
def cbEx : CreateBody :=
  { startTime := 0, endTime := 0, durationSeconds := 5, mode := Mode.stopwatch }

/-- The historical session `POST /sessions` persists for `cbEx`. -/
def tsCr : TimeSession :=
  { description := none, startTime := 0, endTime := 0
    durationSeconds := 5, mode := Mode.stopwatch, userId := "u1"
    projectId := none }

/-- Witness for C5 (amended) at concrete inputs: updating `tsEx` with a new
end time (duration recomputed to 7 s), and creating from `cbEx` (duration
stored as supplied). -/
theorem duration_recompute_policy_witness :
    updateSession [] tsEx bUpdEx =
      .ok
        { tsEx with
          description :=
            match bUpdEx.description with
            | some v => some v
            | none => tsEx.description
          projectId :=
            match bUpdEx.projectId with
            | some v => strOrNull v
            | none => tsEx.projectId
          startTime := bUpdEx.startTime.getD tsEx.startTime
          endTime := bUpdEx.endTime.getD tsEx.endTime
          durationSeconds :=
            Int.fdiv (bUpdEx.endTime.getD tsEx.endTime -
              bUpdEx.startTime.getD tsEx.startTime) 1000 } ∧
    createSession "u1" [] cbEx [] =
      (.created
        { description := cbEx.description
          startTime := cbEx.startTime
          endTime := cbEx.endTime
          durationSeconds := cbEx.durationSeconds
          mode := cbEx.mode
          userId := "u1"
          projectId := jsOrNull cbEx.projectId },
       [{ description := cbEx.description
          startTime := cbEx.startTime
          endTime := cbEx.endTime
          durationSeconds := cbEx.durationSeconds
          mode := cbEx.mode
          userId := "u1"
          projectId := jsOrNull cbEx.projectId }]) :=
  ⟨duration_recompute_policy.1 [] tsEx bUpdEx rfl rfl (by decide),
   duration_recompute_policy.2 "u1" [] cbEx [] rfl⟩

/-- Counterexample to C5 as stated: `POST /sessions` with `cbEx` persists a
session whose stored duration is 5 whereas `endTime − startTime` is 0 whole
seconds — the caller-supplied duration is stored without any cross-check. -/
theorem create_no_crosscheck :
    (createSession "u1" [] cbEx []).1 = .created tsCr ∧
    tsCr.durationSeconds = 5 ∧
    Int.fdiv (tsCr.endTime - tsCr.startTime) 1000 = 0 ∧
    tsCr.durationSeconds ≠ Int.fdiv (tsCr.endTime - tsCr.startTime) 1000 := by
  decide

/-- C6: on open, the stream's first push is a forced fresh read — it queries
the store exactly once regardless of the connection's cache and its
staleness window, refreshes the cache, and pushes one snapshot equal to the
register's current state; when no active session exists that snapshot is
`{active: false, elapsedSeconds: 0}`. -/
theorem stream_open_fresh_snapshot (now : Int) (db : Option FetchedActive)
    (c : ConnState) :
    sendCurrentState true now db c =
      ([renderSnapshot now db],
       { cachedState := some { activeSession := db }, lastQueryTime := now }, 1)
    ∧ renderSnapshot now none = SSEEvent.inactiveState 0 := by
  refine ⟨?_, rfl⟩
  cases db <;> simp [sendCurrentState, renderSnapshot]

/-- C7: the 1-second tick performs no store query (its query count is 0 and
it is not even given the store); when the cache holds an active session it
pushes exactly the cached fields with only `elapsedSeconds` recomputed as
`⌊(now − startTime)/1000⌋`, and it leaves the connection state unchanged. -/
theorem tick_no_query_cached_fields (now : Int) (c : ConnState)
    (cs : CachedState) (a : FetchedActive)
    (hc : c.cachedState = some cs) (hca : cs.activeSession = some a) :
    tickHandler now c =
      ([SSEEvent.activeState a.id a.startTime a.mode a.projectId a.description
          a.targetSeconds a.pomodoroPhase a.pomodoroCycle a.project
          (Int.fdiv (now - a.startTime) 1000)], c, 0) := by
  obtain ⟨cache, lqt⟩ := c
  simp only at hc
  subst hc
  obtain ⟨acs⟩ := cs
  simp only at hca
  subst hca
  simp [tickHandler]

/-- The fetched active session used by the stream witnesses. -/
def faEx : FetchedActive :=
  { id := "as1", startTime := 0, mode := Mode.stopwatch, projectId := none
    description := none, targetSeconds := none, pomodoroPhase := none
    pomodoroCycle := 0, project := none }

/-- A connection whose cache holds `faEx`, last queried at t = 0. -/
def connCached : ConnState :=
  { cachedState := some { activeSession := some faEx }, lastQueryTime := 0 }

/-- Witness for C7 at a concrete input: a tick at t = 7000 ms on
`connCached`. -/
theorem tick_no_query_cached_fields_witness :
    tickHandler 7000 connCached =
      ([SSEEvent.activeState faEx.id faEx.startTime faEx.mode faEx.projectId
          faEx.description faEx.targetSeconds faEx.pomodoroPhase
          faEx.pomodoroCycle faEx.project
          (Int.fdiv (7000 - faEx.startTime) 1000)], connCached, 0) :=
  tick_no_query_cached_fields 7000 connCached { activeSession := some faEx }
    faEx rfl rfl

/-- C8 (amended): the 100 ms collapse exists only for non-forced reads — a
non-forced `sendCurrentState` within `QUERY_CACHE_MS` of the last store
query makes no query and pushes the cached value; but the change-event
handler always calls `sendCurrentState(true)`, so every change event for
this connection's user re-queries the store (one query each), and a burst of
N change events causes N queries, not at most one. -/
theorem fresh_read_window_semantics :
    (∀ (now : Int) (db : Option FetchedActive) (c : ConnState),
        now - c.lastQueryTime ≤ QUERY_CACHE_MS →
        sendCurrentState false now db c =
          ([renderSnapshot now (c.cachedState.bind (fun cs => cs.activeSession))],
           c, 0))
    ∧ (∀ (u : String) (now : Int) (db : Option FetchedActive) (c : ConnState),
        (onChangeHandler u u now db c).2.2 = 1) := by
  constructor
  · intro now db c h
    obtain ⟨cache, lqt⟩ := c
    simp only at h
    have hng : ¬ (now - lqt > QUERY_CACHE_MS) := not_lt.mpr h
    cases cache with
    | none => simp [sendCurrentState, renderSnapshot, hng]
    | some cs =>
      cases hacs : cs.activeSession with
      | none => simp [sendCurrentState, renderSnapshot, hng, hacs]
      | some a => simp [sendCurrentState, renderSnapshot, hng, hacs]
  · intro u now db c
    cases db <;> simp [onChangeHandler, sendCurrentState]

/-- Witness for C8 (amended) at concrete inputs: a non-forced read at
t = 50 ms on `connCached` (within the window), and a change event at
t = 60 ms. -/
theorem fresh_read_window_semantics_witness :
    (50 : Int) - connCached.lastQueryTime ≤ QUERY_CACHE_MS ∧
    sendCurrentState false 50 none connCached =
      ([renderSnapshot 50
          (connCached.cachedState.bind (fun cs => cs.activeSession))],
       connCached, 0) ∧
    (onChangeHandler "u1" "u1" 60 none connCached).2.2 = 1 :=
  ⟨by decide, fresh_read_window_semantics.1 50 none connCached (by decide),
   fresh_read_window_semantics.2 "u1" 60 none connCached⟩

/-- The connection state right after the on-open forced read at t = 0. -/
def connOpened : ConnState := (sendCurrentState true 0 (some faEx) initialConn).2.1

/-- The connection state after a further change event at t = 50 ms. -/
def connBurst : ConnState :=
  (onChangeHandler "u1" "u1" 50 (some faEx) connOpened).2.1

/-- Counterexample to C8 as stated: two change events at t = 50 ms and
t = 80 ms, each within 100 ms of the last store query, cause one store query
each — two in total for the burst, not at most one. -/
theorem change_burst_queries_twice :
    (50 : Int) - connOpened.lastQueryTime ≤ 100 ∧
    (80 : Int) - connBurst.lastQueryTime ≤ 100 ∧
    (onChangeHandler "u1" "u1" 50 (some faEx) connOpened).2.2 +
      (onChangeHandler "u1" "u1" 80 (some faEx) connBurst).2.2 = 2 ∧
    ¬ ((onChangeHandler "u1" "u1" 50 (some faEx) connOpened).2.2 +
       (onChangeHandler "u1" "u1" 80 (some faEx) connBurst).2.2 ≤ 1) := by
  decide

/-- C10: when the connection's cached state holds no active session (whether
the cache is unset or was last refreshed while no session existed), the
1-second tick emits nothing at all — in particular it never pushes the
inactive payload, which only `sendCurrentState` (the on-open and
change-event paths) produces. -/
theorem tick_idle_silent (now : Int) (c : ConnState)
    (h : c.cachedState.bind (fun cs => cs.activeSession) = none) :
    tickHandler now c = ([], c, 0) := by
  obtain ⟨cache, lqt⟩ := c
  cases cache with
  | none => simp [tickHandler]
  | some cs =>
    simp only [Option.some_bind] at h
    simp [tickHandler, h]

/-- A connection whose cache was refreshed while no session was active. -/
def connIdle : ConnState :=
  { cachedState := some { activeSession := none }, lastQueryTime := 0 }

/-- Witness for C10 at a concrete input: a tick at t = 3000 ms on
`connIdle`. -/
theorem tick_idle_silent_witness :
    tickHandler 3000 connIdle = ([], connIdle, 0) :=
  tick_idle_silent 3000 connIdle rfl
